import Mathlib

/-
Verification development for the x402-open gateway routing layer.

The definitions below are a shallow embedding of the peer-coordination code:
  - src/gateway.ts   (createGatewayAdapter: registry, candidate filter, verify
                      fan-out with multiaddr fallback, settle single-shot)
  - src/httpGateway.ts (createHttpGatewayAdapter: fan-out verify, settle
                      try-order loop, postJson with abort timer)
  - src/p2p.ts       (P2PManager.requestVerify / requestSettle / sendRequest)

Dynamic JS values are modelled by small inductive types recording exactly the
fields the gateway inspects; each transport call's outcome (a resolved
status+body response or a thrown rejection) is supplied by an environment
function, and every route additionally returns the list of transport calls it
performed (the dispatch trace), with the body each call carried.
-/

set_option linter.unusedVariables false

namespace X402

/-- Capability descriptor advertised by a peer; the gateway only ever reads
the network field (gateway.ts line 99). -/
structure Kind where
  scheme : String
  network : String
deriving DecidableEq, Repr

/-- PeerRecord from gateway.ts lines 13-17. -/
structure PeerRecord where
  peerId : String
  kinds : List Kind
  lastSeenMs : Nat
deriving DecidableEq, Repr

/-- The peerIdToRecord map, as an insertion-ordered association list (JS Map
iteration is insertion-ordered). -/
abbrev Registry := List PeerRecord

/-- Static seeding (gateway.ts lines 37-40): each static peer is inserted with
empty kinds and lastSeenMs 0. -/
def seedStatic (peerIds : List String) : Registry :=
  peerIds.map (fun pid => { peerId := pid, kinds := [], lastSeenMs := 0 })

/-- getActivePeers (gateway.ts lines 69-78): a peer is active iff
now - lastSeenMs is at most peerTtlMs or lastSeenMs is 0.  Nat subtraction
truncates at 0, which agrees with the JS comparison (a negative difference
also satisfies the bound). -/
def getActivePeers (reg : Registry) (now peerTtlMs : Nat) : List String :=
  (reg.filter (fun rec => decide (now - rec.lastSeenMs ≤ peerTtlMs) || rec.lastSeenMs == 0)).map
    (fun rec => rec.peerId)

/-- Payment payload value: either the normalized wrapper object built from a
legacy header field, or any other (always truthy) payload object. -/
inductive PayloadVal where
  | headerWrap (header : String)
  | payloadObj (tag : String)
deriving DecidableEq, Repr

/-- Payment requirements object; the gateway only reads its network field
(gateway.ts line 94). -/
structure ReqVal where
  network : Option String
deriving DecidableEq, Repr

/-- Request body as the gateway inspects it: presence of paymentPayload,
paymentHeader and paymentRequirements fields. -/
structure BodyShape where
  paymentPayload : Option PayloadVal
  paymentHeader : Option String
  paymentRequirements : Option ReqVal
deriving DecidableEq, Repr

/-- Body normalization (gateway.ts lines 106-111 and 175-180, httpGateway.ts
lines 52-57): if paymentPayload and paymentRequirements are both present the
body is forwarded as is; else a truthy (non-empty) paymentHeader together with
paymentRequirements is rewritten to the wrapper shape; else the body is
forwarded unchanged. -/
def forwardBody (inbound : BodyShape) : BodyShape :=
  match inbound.paymentPayload, inbound.paymentHeader, inbound.paymentRequirements with
  | some _, _, some _ => inbound
  | none, some h, some r =>
      if h == "" then inbound
      else { paymentPayload := some (PayloadVal.headerWrap h)
             paymentHeader := none
             paymentRequirements := some r }
  | _, _, _ => inbound

/-- The requested network read from the raw inbound body (gateway.ts line 94);
an empty string is falsy in JS, so it disables the filter like an absent
field. -/
def requestedNetworkOf (b : BodyShape) : Option String :=
  match b.paymentRequirements with
  | none => none
  | some r =>
    match r.network with
    | none => none
    | some n => if n == "" then none else some n

/-- Registry lookup by peer id (gateway.ts line 97). -/
def recordFor (reg : Registry) (pid : String) : Option PeerRecord :=
  reg.find? (fun rec => rec.peerId == pid)

/-- The per-peer filter predicate (gateway.ts lines 96-100): a peer with no
record is kept; otherwise the peer is kept iff some advertised kind names the
requested network.  (The JS guard !Array.isArray(rec.kinds) can never fire for
records built by this adapter: seeding and announcements always store an
array, possibly empty.) -/
def peerMatchesNetwork (reg : Registry) (net : String) (pid : String) : Bool :=
  match recordFor reg pid with
  | none => true
  | some rec => rec.kinds.any (fun k => k.network == net)

/-- candidatePeers filter step (gateway.ts line 96). -/
def filterByNetwork (reg : Registry) (peers : List String) (net : String) : List String :=
  peers.filter (peerMatchesNetwork reg net)

/-- Candidate selection (gateway.ts lines 92-103): no requested network means
no filtering; a filter that empties the set is discarded (line 101). -/
def candidatePeers (reg : Registry) (peers : List String) (requested : Option String) :
    List String :=
  match requested with
  | none => peers
  | some net =>
    let filtered := filterByNetwork reg peers net
    if filtered.isEmpty then peers else filtered

/-- Quorum clamping at adapter construction (gateway.ts line 31, httpGateway.ts
line 33): the configured value defaults to 1 and is clamped to a minimum
of 1. -/
def clampQuorum (configured : Option Nat) : Nat :=
  max 1 (configured.getD 1)

/-- Response body returned by a peer, as far as the gateway inspects it: the
literal boolean true or false, an object whose string error field and txHash
field the gateway may read, or any other value. -/
inductive RespBody where
  | boolVal (b : Bool)
  | objVal (errField : Option String) (txHashField : Option String)
  | otherVal (tag : String)
deriving DecidableEq, Repr

/-- The check response.body === true (gateway.ts line 123). -/
def RespBody.isLiterallyTrue : RespBody → Bool
  | .boolVal true => true
  | _ => false

/-- The string error field of a response body, when present
(gateway.ts lines 158 and 187). -/
def RespBody.errStr : RespBody → Option String
  | .objVal e _ => e
  | _ => none

/-- The txHash field of a response body, null coalesced (gateway.ts line 184). -/
def RespBody.txHashOf : RespBody → Option String
  | .objVal _ t => t
  | _ => none

/-- Outcome of one transport call: a resolved status+body response, or a
thrown rejection (timeout, unreachable target, malformed reply). -/
inductive CallResult where
  | okResp (status : Nat) (body : RespBody)
  | thrown
deriving DecidableEq, Repr

/-- Whether a call resolved with status 200 (the settle success test,
gateway.ts line 183, httpGateway.ts line 143). -/
def isOk200 : CallResult → Bool
  | .okResp s _ => s == 200
  | .thrown => false

/-- Attempt outcome classification used by the verify fan-out
(gateway.ts lines 113-117). -/
inductive Attempt where
  | vTrue
  | vFalse
  | vError (status : Nat) (body : RespBody)
  | vFail
deriving DecidableEq, Repr

def Attempt.isTrueA : Attempt → Bool
  | .vTrue => true
  | _ => false

def Attempt.isFalseA : Attempt → Bool
  | .vFalse => true
  | _ => false

def Attempt.isErrorA : Attempt → Bool
  | .vError _ _ => true
  | _ => false

/-- Classification of a resolved verify response (gateway.ts lines 122-125):
status 200 yields vTrue exactly when the body is the literal true, any other
status yields vError carrying the encountered status and body. -/
def classifyResp (status : Nat) (body : RespBody) : Attempt :=
  if status == 200 then (if body.isLiterallyTrue then Attempt.vTrue else Attempt.vFalse)
  else Attempt.vError status body

/-- Bodies of the responses the gateway itself produces. -/
inductive OutBody where
  | verifyResult (isValid : Bool) (invalidReason : Option String)
  | errorMsg (error : String)
  | settleResult (success : Bool) (error : Option String) (txHash : Option String)
      (networkId : Option String)
  | boolBody (b : Bool)
  | forwardedBody (b : RespBody)
deriving DecidableEq, Repr

/-- A gateway HTTP response: status code plus body. -/
structure HttpResponse where
  status : Nat
  body : OutBody
deriving DecidableEq, Repr

/-- One transport call performed by a route, recording the target and the body
that was forwarded on that call. -/
inductive TraceCall where
  | verifyPeer (pid : String) (body : BodyShape)
  | verifyMaddr (maddr : String) (body : BodyShape)
  | settlePeer (pid : String) (body : BodyShape)
  | settleMaddr (maddr : String) (body : BodyShape)
deriving DecidableEq, Repr

/-- The peer id or multiaddr a trace call was addressed to. -/
def TraceCall.targetOf : TraceCall → String
  | .verifyPeer p _ => p
  | .verifyMaddr m _ => m
  | .settlePeer p _ => p
  | .settleMaddr m _ => m

/-- Transport environment: the outcome each possible call would produce
(requestVerify, requestVerifyByMultiaddr, requestSettle,
requestSettleByMultiaddr). -/
structure TransportEnv where
  verifyPeer : String → CallResult
  verifyMaddr : String → CallResult
  settlePeer : String → CallResult
  settleMaddr : String → CallResult

/-- The verify multiaddr fallback loop (gateway.ts lines 129-139): each known
multiaddr is dialled in order with the RAW inbound request body (req.body at
line 132); the first non-thrown response is classified and returned, a thrown
dial moves to the next address, exhaustion yields vFail. -/
def verifyMaddrLoop (env : TransportEnv) (rawBody : BodyShape) :
    List String → Attempt × List TraceCall
  | [] => (Attempt.vFail, [])
  | m :: rest =>
    match env.verifyMaddr m with
    | .okResp s b => (classifyResp s b, [TraceCall.verifyMaddr m rawBody])
    | .thrown =>
        ((verifyMaddrLoop env rawBody rest).1,
         TraceCall.verifyMaddr m rawBody :: (verifyMaddrLoop env rawBody rest).2)

/-- One verify attempt against one candidate peer (gateway.ts lines 119-140):
the direct requestVerify carries the normalized forward body; if it throws,
the multiaddr fallback loop runs with the raw inbound body. -/
def runVerifyAttempt (env : TransportEnv) (maddrsOf : String → List String)
    (fwd rawBody : BodyShape) (pid : String) : Attempt × List TraceCall :=
  match env.verifyPeer pid with
  | .okResp s b => (classifyResp s b, [TraceCall.verifyPeer pid fwd])
  | .thrown =>
      ((verifyMaddrLoop env rawBody (maddrsOf pid)).1,
       TraceCall.verifyPeer pid fwd :: (verifyMaddrLoop env rawBody (maddrsOf pid)).2)

/-- The verify reduction (gateway.ts lines 142-161): quorum-true wins, else any
explicit false, else the first error in candidate iteration order surfaces its
string error field (or the fixed fallback text) with fixed status 400, else
503 Verification unavailable. -/
def verifyReduce (verifyQuorum : Nat) (attempts : List Attempt) : HttpResponse :=
  let trueCount := attempts.countP Attempt.isTrueA
  let sawFalse := attempts.any Attempt.isFalseA
  let firstError := attempts.find? Attempt.isErrorA
  if verifyQuorum ≤ trueCount then
    { status := 200, body := OutBody.verifyResult true none }
  else if sawFalse then
    { status := 200, body := OutBody.verifyResult false none }
  else
    match firstError with
    | some (Attempt.vError _ b) =>
        { status := 400
          body := OutBody.verifyResult false (some (b.errStr.getD "Verification error")) }
    | _ => { status := 503, body := OutBody.errorMsg "Verification unavailable" }

/-- POST rpc/verify of createGatewayAdapter (gateway.ts lines 85-165), as a
pure function of the registry snapshot, clock, options, inbound body and
transport environment; paired with the dispatch trace. -/
def gatewayVerifyRoute (hasP2p : Bool) (reg : Registry) (now peerTtlMs verifyQuorum : Nat)
    (maddrsOf : String → List String) (inbound : BodyShape) (env : TransportEnv) :
    HttpResponse × List TraceCall :=
  let peers := getActivePeers reg now peerTtlMs
  if !hasP2p || peers.isEmpty then
    ({ status := 503, body := OutBody.errorMsg "No peers available" }, [])
  else
    let candidates := candidatePeers reg peers (requestedNetworkOf inbound)
    let fwd := forwardBody inbound
    let results := candidates.map (runVerifyAttempt env maddrsOf fwd inbound)
    (verifyReduce verifyQuorum (results.map Prod.fst), (results.map Prod.snd).flatten)

/-- pickRandom (gateway.ts lines 80-82) models
arr[Math.floor(Math.random() * arr.length)], with the random draw given as the
rational n / d (a draw in [0,1) has n < d): the floored index is
n * arr.length / d in Nat arithmetic, and an out-of-range index (only possible
for a draw outside [0,1)) yields none, the JS undefined. -/
def pickRandom (arr : List String) (n d : Nat) : Option String :=
  arr[n * arr.length / d]?

/-- The settle multiaddr fallback loop (gateway.ts lines 190-201): each known
multiaddr of the picked peer is dialled with the normalized forward body; a
status-200 reply returns success with its txHash, any other resolved reply
returns 400 with its error message, a thrown dial moves on, exhaustion yields
the 503 Settle unavailable response (line 202). -/
def settleMaddrLoop (env : TransportEnv) (fwd : BodyShape) :
    List String → HttpResponse × List TraceCall
  | [] => ({ status := 503
             body := OutBody.settleResult false (some "Settle unavailable") none none }, [])
  | m :: rest =>
    match env.settleMaddr m with
    | .okResp s b =>
        ((if s == 200 then
            { status := 200, body := OutBody.settleResult true none b.txHashOf none }
          else
            { status := 400
              body := OutBody.settleResult false (some (b.errStr.getD "Settle error")) none none }),
         [TraceCall.settleMaddr m fwd])
    | .thrown =>
        ((settleMaddrLoop env fwd rest).1,
         TraceCall.settleMaddr m fwd :: (settleMaddrLoop env fwd rest).2)

/-- POST rpc/settle of createGatewayAdapter (gateway.ts lines 168-206): one
randomly picked peer receives the normalized body; a status-200 reply returns
success, any other resolved reply returns 400 immediately, and a thrown call
falls back to that same peer's multiaddrs only.  The route is none exactly
when the random index is out of range (a draw outside [0,1)). -/
def gatewaySettleRoute (hasP2p : Bool) (reg : Registry) (now peerTtlMs : Nat)
    (maddrsOf : String → List String) (inbound : BodyShape) (n d : Nat)
    (env : TransportEnv) : Option (HttpResponse × List TraceCall) :=
  let peers := getActivePeers reg now peerTtlMs
  if !hasP2p || peers.isEmpty then
    some ({ status := 503, body := OutBody.errorMsg "No peers available" }, [])
  else
    match pickRandom peers n d with
    | none => none
    | some pid =>
      let fwd := forwardBody inbound
      match env.settlePeer pid with
      | .okResp s b =>
          some ((if s == 200 then
                   { status := 200, body := OutBody.settleResult true none b.txHashOf none }
                 else
                   { status := 400
                     body := OutBody.settleResult false (some (b.errStr.getD "Settle error"))
                       none none }),
                [TraceCall.settlePeer pid fwd])
      | .thrown =>
          some ((settleMaddrLoop env fwd (maddrsOf pid)).1,
                TraceCall.settlePeer pid fwd :: (settleMaddrLoop env fwd (maddrsOf pid)).2)

/-- The first transport call of a settle route run, by target. -/
def firstTargetOf : Option (HttpResponse × List TraceCall) → Option String
  | some (_, c :: _) => some c.targetOf
  | some (_, []) => none
  | none => none

/-- One fan-out verify attempt of createHttpGatewayAdapter (httpGateway.ts
lines 89-98): a resolved response is classified like the libp2p route, a
thrown call is vFail; there is no multiaddr fallback. -/
def httpVerifyAttempt (outcome : String → CallResult) (pid : String) : Attempt :=
  match outcome pid with
  | .okResp s b => classifyResp s b
  | .thrown => Attempt.vFail

/-- The fan-out verify reduction of createHttpGatewayAdapter (httpGateway.ts
lines 100-120): same counting, but the success responses carry a bare boolean
body and the error branch forwards the first error body verbatim with fixed
status 400. -/
def httpVerifyReduce (verifyQuorum : Nat) (attempts : List Attempt) : HttpResponse :=
  let trueCount := attempts.countP Attempt.isTrueA
  let sawFalse := attempts.any Attempt.isFalseA
  let firstError := attempts.find? Attempt.isErrorA
  if verifyQuorum ≤ trueCount then { status := 200, body := OutBody.boolBody true }
  else if sawFalse then { status := 200, body := OutBody.boolBody false }
  else
    match firstError with
    | some (Attempt.vError _ b) => { status := 400, body := OutBody.forwardedBody b }
    | _ => { status := 503, body := OutBody.errorMsg "Verification unavailable" }

/-- POST rpc/verify of createHttpGatewayAdapter in fan-out mode (httpGateway.ts
lines 47-124, verifyMode fanout). -/
def httpVerifyRoute (verifyQuorum : Nat) (httpPeers : List String) (inbound : BodyShape)
    (outcome : String → CallResult) : HttpResponse × List TraceCall :=
  if httpPeers.isEmpty then
    ({ status := 503, body := OutBody.errorMsg "No peers configured" }, [])
  else
    let fwd := forwardBody inbound
    (httpVerifyReduce verifyQuorum (httpPeers.map (httpVerifyAttempt outcome)),
     httpPeers.map (fun p => TraceCall.verifyPeer p fwd))

/-- The settle try-order loop of createHttpGatewayAdapter (httpGateway.ts
lines 138-150): peers are tried in order; a status-200 reply is forwarded
verbatim and stops, any other resolved reply and any thrown call advance to
the next peer, exhaustion yields the 503 Settle unavailable response
(line 151). -/
def httpSettleLoop (outcome : String → CallResult) (fwd : BodyShape) :
    List String → HttpResponse × List TraceCall
  | [] => ({ status := 503
             body := OutBody.settleResult false (some "Settle unavailable") none none }, [])
  | p :: rest =>
    match outcome p with
    | .okResp s b =>
        if s == 200 then
          ({ status := 200, body := OutBody.forwardedBody b }, [TraceCall.settlePeer p fwd])
        else
          ((httpSettleLoop outcome fwd rest).1,
           TraceCall.settlePeer p fwd :: (httpSettleLoop outcome fwd rest).2)
    | .thrown =>
        ((httpSettleLoop outcome fwd rest).1,
         TraceCall.settlePeer p fwd :: (httpSettleLoop outcome fwd rest).2)

/-- POST rpc/settle of createHttpGatewayAdapter (httpGateway.ts lines
127-152): guard on the configured peer list, then run the try-order loop over
the shuffled list (the shuffle is modelled as an arbitrary permutation
parameter). -/
def httpSettleRoute (httpPeers shuffled : List String) (inbound : BodyShape)
    (outcome : String → CallResult) : HttpResponse × List TraceCall :=
  if httpPeers.isEmpty then
    ({ status := 503
       body := OutBody.settleResult false (some "No peers configured") none none }, [])
  else httpSettleLoop outcome (forwardBody inbound) shuffled

/-- Time model of postJson (httpGateway.ts lines 12-29): an abort timer is
armed at timeoutMs and cancels the in-flight fetch, so a responder needing
delayMs beyond the timeout makes the call throw, and the call never occupies
more than min delayMs timeoutMs milliseconds. -/
def postJsonResult (delayMs timeoutMs : Nat) (resp : CallResult) : CallResult :=
  if timeoutMs < delayMs then CallResult.thrown else resp

/-- How long a postJson call blocks in the same time model: the abort timer
bounds it by timeoutMs. -/
def postJsonBlockedMs (delayMs timeoutMs : Nat) : Nat :=
  min delayMs timeoutMs

/-- Time model of P2PManager.requestVerify / requestSettle (p2p.ts lines
148-154 delegating to sendRequest, lines 182-192): sendRequest awaits dial,
newStream, sink and readAll with no timer of any kind, and the timeoutMs
parameter is never read, so the call's result does not depend on it. -/
def p2pRequestResult (delayMs timeoutMs : Nat) (resp : CallResult) : CallResult :=
  resp

/-- How long a P2PManager request blocks in the same time model: the full
responder delay, unconstrained by the timeoutMs argument. -/
def p2pRequestBlockedMs (delayMs timeoutMs : Nat) : Nat :=
  delayMs

/-- The isValid verdict carried by a gateway response body, when it carries
one (the libp2p route's structured body, or the HTTP route's bare boolean). -/
def isValidOf (r : HttpResponse) : Option Bool :=
  match r.body with
  | OutBody.verifyResult v _ => some v
  | OutBody.boolBody b => some b
  | _ => none

/-- A concrete spec-shaped request body used by the concrete evaluations. -/
def demoBody : BodyShape :=
  { paymentPayload := some (PayloadVal.payloadObj "payload")
    paymentHeader := none
    paymentRequirements := some { network := some "base-sepolia" } }

/-- A concrete legacy-shaped request body: raw header plus requirements, no
paymentPayload. -/
def legacyBody : BodyShape :=
  { paymentPayload := none
    paymentHeader := some "hdr"
    paymentRequirements := some { network := some "base-sepolia" } }

/-- Environment in which every transport call throws (all peers unreachable). -/
def envAllThrown : TransportEnv :=
  { verifyPeer := fun _ => CallResult.thrown
    verifyMaddr := fun _ => CallResult.thrown
    settlePeer := fun _ => CallResult.thrown
    settleMaddr := fun _ => CallResult.thrown }

/-- Environment in which direct delivery throws but multiaddr dials resolve
with the literal true body. -/
def envMaddrOnly : TransportEnv :=
  { verifyPeer := fun _ => CallResult.thrown
    verifyMaddr := fun _ => CallResult.okResp 200 (RespBody.boolVal true)
    settlePeer := fun _ => CallResult.thrown
    settleMaddr := fun _ => CallResult.okResp 200 (RespBody.boolVal true) }

/-- Environment in which peerA verifies true and every other peer verifies
false. -/
def envSplitVerify : TransportEnv :=
  { verifyPeer := fun pid =>
      if pid == "peerA" then CallResult.okResp 200 (RespBody.boolVal true)
      else CallResult.okResp 200 (RespBody.boolVal false)
    verifyMaddr := fun _ => CallResult.thrown
    settlePeer := fun _ => CallResult.thrown
    settleMaddr := fun _ => CallResult.thrown }

/-- Mixed registry: peerA statically seeded (empty kinds, lastSeenMs 0), peerB
announced with an exact base-sepolia kind. -/
def regMixed : Registry :=
  [ { peerId := "peerA", kinds := [], lastSeenMs := 0 },
    { peerId := "peerB", kinds := [{ scheme := "exact", network := "base-sepolia" }],
      lastSeenMs := 0 } ]

end X402

namespace X402

theorem verifyReduce_eq_true_iff (q : Nat) (l : List Attempt) :
    verifyReduce q l = { status := 200, body := OutBody.verifyResult true none }
      ↔ q ≤ l.countP Attempt.isTrueA := by
  by_cases h : q ≤ l.countP Attempt.isTrueA
  · simp [verifyReduce, h]
  · simp only [verifyReduce, h, if_false, iff_false]
    intro hcontra
    by_cases hf : l.any Attempt.isFalseA = true
    · rw [if_pos hf] at hcontra
      simp at hcontra
    · rw [if_neg hf] at hcontra
      rcases hfind : l.find? Attempt.isErrorA with _ | a
      · rw [hfind] at hcontra
        simp at hcontra
      · rw [hfind] at hcontra
        cases a <;> simp at hcontra

theorem isValidOf_verifyReduce (q : Nat) (l : List Attempt) :
    isValidOf (verifyReduce q l) =
      if q ≤ l.countP Attempt.isTrueA then some true
      else if l.any Attempt.isFalseA || (l.find? Attempt.isErrorA).isSome then some false
      else none := by
  by_cases h1 : q ≤ l.countP Attempt.isTrueA
  · simp [verifyReduce, isValidOf, h1]
  · by_cases h2 : l.any Attempt.isFalseA = true
    · simp [verifyReduce, isValidOf, h1, h2]
    · rcases hfind : l.find? Attempt.isErrorA with _ | a
      · simp [verifyReduce, isValidOf, h1, h2, hfind]
      · have ha := List.find?_some hfind
        cases a with
        | vError s b => simp [verifyReduce, isValidOf, h1, h2, hfind]
        | vTrue => simp [Attempt.isErrorA] at ha
        | vFalse => simp [Attempt.isErrorA] at ha
        | vFail => simp [Attempt.isErrorA] at ha

theorem isValidOf_verifyReduce_perm (q : Nat) {l l' : List Attempt} (h : l.Perm l') :
    isValidOf (verifyReduce q l) = isValidOf (verifyReduce q l') := by
  have hany : l.any Attempt.isFalseA = l'.any Attempt.isFalseA := by
    cases hb : l'.any Attempt.isFalseA
    · rw [List.any_eq_false] at hb ⊢
      exact fun x hx => hb x (h.mem_iff.mp hx)
    · rw [List.any_eq_true] at hb ⊢
      obtain ⟨x, hx, hpx⟩ := hb
      exact ⟨x, h.mem_iff.mpr hx, hpx⟩
  have hfind : (l.find? Attempt.isErrorA).isSome = (l'.find? Attempt.isErrorA).isSome := by
    cases hb : (l'.find? Attempt.isErrorA).isSome
    · cases hb2 : (l.find? Attempt.isErrorA).isSome
      · rfl
      · obtain ⟨x, hx, hpx⟩ := List.find?_isSome.mp hb2
        have : (l'.find? Attempt.isErrorA).isSome = true :=
          List.find?_isSome.mpr ⟨x, h.mem_iff.mp hx, hpx⟩
        rw [hb] at this
        cases this
    · obtain ⟨x, hx, hpx⟩ := List.find?_isSome.mp hb
      exact List.find?_isSome.mpr ⟨x, h.mem_iff.mpr hx, hpx⟩
  rw [isValidOf_verifyReduce, isValidOf_verifyReduce, h.countP_eq, hany, hfind]

theorem gatewayVerifyRoute_fst (reg : Registry) (now ttl q : Nat)
    (maddrsOf : String → List String) (inbound : BodyShape) (env : TransportEnv)
    (hne : getActivePeers reg now ttl ≠ []) :
    (gatewayVerifyRoute true reg now ttl q maddrsOf inbound env).1
      = verifyReduce q
          ((candidatePeers reg (getActivePeers reg now ttl) (requestedNetworkOf inbound)).map
            (fun pid => (runVerifyAttempt env maddrsOf (forwardBody inbound) inbound pid).1)) := by
  simp only [gatewayVerifyRoute, List.isEmpty_eq_false.mpr hne, Bool.not_true, Bool.false_or,
    Bool.false_eq_true, if_false, List.map_map]
  rfl

end X402

namespace X402

theorem pickRandom_index_lt {arr : List String} {n d : Nat}
    (hne : arr ≠ []) (hnd : n < d) : n * arr.length / d < arr.length := by
  have hd : 0 < d := Nat.lt_of_le_of_lt (Nat.zero_le n) hnd
  have hlen : 0 < arr.length := List.length_pos.mpr hne
  rw [Nat.div_lt_iff_lt_mul hd]
  calc n * arr.length < d * arr.length := mul_lt_mul_of_pos_right hnd hlen
    _ = arr.length * d := Nat.mul_comm d arr.length

theorem pickRandom_mem {arr : List String} {n d : Nat}
    (hne : arr ≠ []) (hnd : n < d) :
    ∃ pid, pickRandom arr n d = some pid ∧ pid ∈ arr := by
  have hlt := pickRandom_index_lt hne hnd
  exact ⟨arr[n * arr.length / d], List.getElem?_eq_getElem hlt, List.getElem_mem hlt⟩

theorem gatewaySettleRoute_head (reg : Registry) (now ttl : Nat)
    (maddrsOf : String → List String) (inbound : BodyShape) (n d : Nat)
    (env : TransportEnv) (pid : String)
    (hne : getActivePeers reg now ttl ≠ [])
    (hpick : pickRandom (getActivePeers reg now ttl) n d = some pid) :
    ∃ r t, gatewaySettleRoute true reg now ttl maddrsOf inbound n d env
      = some (r, TraceCall.settlePeer pid (forwardBody inbound) :: t) := by
  simp only [gatewaySettleRoute, List.isEmpty_eq_false.mpr hne, Bool.not_true, Bool.false_or,
    Bool.false_eq_true, if_false, hpick]
  cases henv : env.settlePeer pid with
  | okResp s b =>
    by_cases hs : (s == 200) = true
    · exact ⟨{ status := 200, body := OutBody.settleResult true none b.txHashOf none }, [],
        by simp [henv, hs]⟩
    · exact ⟨{ status := 400,
               body := OutBody.settleResult false (some (b.errStr.getD "Settle error")) none none },
        [], by simp [henv, hs]⟩
  | thrown =>
    exact ⟨(settleMaddrLoop env (forwardBody inbound) (maddrsOf pid)).1,
           (settleMaddrLoop env (forwardBody inbound) (maddrsOf pid)).2,
           by simp [henv]⟩

theorem httpSettleLoop_503 (outcome : String → CallResult) (fwd : BodyShape) :
    ∀ l : List String, (httpSettleLoop outcome fwd l).1.status = 503 →
      (httpSettleLoop outcome fwd l).2 = l.map (fun p => TraceCall.settlePeer p fwd)
      ∧ ∀ p ∈ l, isOk200 (outcome p) = false := by
  intro l
  induction l with
  | nil =>
    intro _
    exact ⟨rfl, by intro p hp; cases hp⟩
  | cons p rest ih =>
    intro h
    cases hout : outcome p with
    | okResp s b =>
      by_cases hs : (s == 200) = true
      · rw [httpSettleLoop] at h
        simp only [hout, hs, if_true] at h
        exact absurd h (by decide)
      · rw [httpSettleLoop] at h
        simp only [hout, hs, if_false, Bool.false_eq_true] at h
        obtain ⟨h1, h2⟩ := ih h
        refine ⟨?_, ?_⟩
        · rw [httpSettleLoop]
          simp only [hout, hs, if_false, Bool.false_eq_true, List.map_cons]
          rw [h1]
        · intro x hx
          rcases List.mem_cons.mp hx with rfl | hx'
          · simp [isOk200, hout, hs]
          · exact h2 x hx'
    | thrown =>
      rw [httpSettleLoop] at h
      simp only [hout] at h
      obtain ⟨h1, h2⟩ := ih h
      refine ⟨?_, ?_⟩
      · rw [httpSettleLoop]
        simp only [hout, List.map_cons]
        rw [h1]
      · intro x hx
        rcases List.mem_cons.mp hx with rfl | hx'
        · simp [isOk200, hout]
        · exact h2 x hx'

end X402

namespace X402

/-- C1 counterexample: with peerA and peerB both active, take peerB for the
peer that produced the prior successful verify for this request's correlation
key (the settle route keeps no record of it: no sticky table exists in the
adapter, so any choice of prior-verify peer is consistent with the program
state); the random draw 0/2 makes the settle route dispatch to peerA, not to
the sticky-preferred peerB. -/
theorem settle_sticky_cex :
    "peerB" ∈ getActivePeers (seedStatic ["peerA", "peerB"]) 0 120000 ∧
    firstTargetOf (gatewaySettleRoute true (seedStatic ["peerA", "peerB"]) 0 120000
      (fun _ => []) demoBody 0 2 envAllThrown) = some "peerA" ∧
    "peerA" ≠ "peerB" := by
  refine ⟨by decide, by decide, by decide⟩

/-- C1 amended: the settle route consults no sticky state; whenever the active
set is non-empty and the random draw n/d lies in the unit interval, the first
(and only direct) settle dispatch goes to the pickRandom selection, and that
target is the same for every request body and every transport environment, so
prior verify outcomes cannot influence it. -/
theorem settle_dispatch_ignores_prior_verify (reg : Registry) (now ttl n d : Nat)
    (hne : getActivePeers reg now ttl ≠ []) (hnd : n < d) :
    ∃ pid, pickRandom (getActivePeers reg now ttl) n d = some pid ∧
      ∀ (maddrsOf : String → List String) (inbound : BodyShape) (env : TransportEnv),
        firstTargetOf (gatewaySettleRoute true reg now ttl maddrsOf inbound n d env)
          = some pid := by
  obtain ⟨pid, hpick, _⟩ := pickRandom_mem hne hnd
  refine ⟨pid, hpick, ?_⟩
  intro maddrsOf inbound env
  obtain ⟨r, t, heq⟩ := gatewaySettleRoute_head reg now ttl maddrsOf inbound n d env pid hne hpick
  rw [heq]
  rfl

/-- C1 witness: the amended theorem applied to two active static peers, the
draw 1/2, and two different bodies and environments. -/
theorem settle_dispatch_ignores_prior_verify_witness :
    (getActivePeers (seedStatic ["peerA", "peerB"]) 0 120000 ≠ []) ∧ 1 < 2 ∧
    ∃ pid, pickRandom (getActivePeers (seedStatic ["peerA", "peerB"]) 0 120000) 1 2 = some pid ∧
      ∀ (maddrsOf : String → List String) (inbound : BodyShape) (env : TransportEnv),
        firstTargetOf (gatewaySettleRoute true (seedStatic ["peerA", "peerB"]) 0 120000
          maddrsOf inbound 1 2 env) = some pid :=
  ⟨by decide, by decide,
   settle_dispatch_ignores_prior_verify (seedStatic ["peerA", "peerB"]) 0 120000 1 2
     (by decide) (by decide)⟩

/-- C2 counterexample: two active peers, the picked peerA's settle call throws
and it has no known multiaddrs; the route answers 503 Settle unavailable
having dispatched exactly one call, to peerA, while the other active peer
peerB was never attempted. -/
theorem settle_unavailable_without_failover_cex :
    gatewaySettleRoute true (seedStatic ["peerA", "peerB"]) 0 120000 (fun _ => [])
        demoBody 0 2 envAllThrown
      = some ({ status := 503,
                body := OutBody.settleResult false (some "Settle unavailable") none none },
              [TraceCall.settlePeer "peerA" (forwardBody demoBody)]) ∧
    "peerB" ∈ getActivePeers (seedStatic ["peerA", "peerB"]) 0 120000 ∧
    (∀ c ∈ [TraceCall.settlePeer "peerA" (forwardBody demoBody)],
      TraceCall.targetOf c ≠ "peerB") := by
  refine ⟨by decide, by decide, by decide⟩

/-- C2 amended, proved for the binding that does fail over: the HTTP gateway
settle route returns the 503 Settle-unavailable response only after every peer
in its shuffled try-order has been attempted, none of them having resolved
with status 200; by the shuffle permutation that covers every configured
peer. -/
theorem httpSettle_exhausts_all_before_unavailable
    (httpPeers shuffled : List String) (inbound : BodyShape)
    (outcome : String → CallResult)
    (hperm : shuffled.Perm httpPeers) (hne : httpPeers ≠ [])
    (h503 : (httpSettleRoute httpPeers shuffled inbound outcome).1.status = 503) :
    (httpSettleRoute httpPeers shuffled inbound outcome).2
        = shuffled.map (fun p => TraceCall.settlePeer p (forwardBody inbound))
    ∧ ∀ p ∈ httpPeers, isOk200 (outcome p) = false := by
  have hroute : httpSettleRoute httpPeers shuffled inbound outcome
      = httpSettleLoop outcome (forwardBody inbound) shuffled := by
    simp [httpSettleRoute, List.isEmpty_eq_false.mpr hne]
  rw [hroute] at h503 ⊢
  obtain ⟨h1, h2⟩ := httpSettleLoop_503 outcome (forwardBody inbound) shuffled h503
  exact ⟨h1, fun p hp => h2 p (hperm.mem_iff.mpr hp)⟩

/-- C2 witness: two configured HTTP peers in reversed try-order, every call
throwing; the trace covers both peers and neither call succeeded. -/
theorem httpSettle_exhausts_all_before_unavailable_witness :
    (["u2", "u1"].Perm ["u1", "u2"]) ∧ (["u1", "u2"] : List String) ≠ [] ∧
    (httpSettleRoute ["u1", "u2"] ["u2", "u1"] demoBody (fun _ => CallResult.thrown)).1.status
      = 503 ∧
    ((httpSettleRoute ["u1", "u2"] ["u2", "u1"] demoBody (fun _ => CallResult.thrown)).2
        = ["u2", "u1"].map (fun p => TraceCall.settlePeer p (forwardBody demoBody))
      ∧ ∀ p ∈ ["u1", "u2"], isOk200 ((fun _ => CallResult.thrown) p) = false) :=
  ⟨by decide, by decide, by decide,
   httpSettle_exhausts_all_before_unavailable ["u1", "u2"] ["u2", "u1"] demoBody
     (fun _ => CallResult.thrown) (by decide) (by decide) (by decide)⟩

/-- C3: for any configured quorum q of at least 1 (the adapter clamps the
configured value to a minimum of 1, so this covers every configured value the
clamp leaves unchanged) and any fixed per-peer attempt outcomes determined by
the transport environment, the libp2p gateway verify route answers the
200 isValid-true response exactly when at least q candidates produced a vTrue
outcome; and the isValid verdict of the reduction is invariant under any
permutation of the candidate list, so it is a pure function of the outcome
set, independent of arrival order. -/
theorem verify_quorum_iff_order_insensitive
    (reg : Registry) (now ttl q : Nat) (maddrsOf : String → List String)
    (inbound : BodyShape) (env : TransportEnv) (cands' : List String)
    (hq : 1 ≤ q)
    (hne : getActivePeers reg now ttl ≠ [])
    (hperm : (candidatePeers reg (getActivePeers reg now ttl)
        (requestedNetworkOf inbound)).Perm cands') :
    ((gatewayVerifyRoute true reg now ttl (clampQuorum (some q)) maddrsOf inbound env).1
        = { status := 200, body := OutBody.verifyResult true none }
      ↔ q ≤ (candidatePeers reg (getActivePeers reg now ttl)
              (requestedNetworkOf inbound)).countP
              (fun pid => ((runVerifyAttempt env maddrsOf (forwardBody inbound)
                inbound pid).1).isTrueA))
    ∧ isValidOf (verifyReduce (clampQuorum (some q)) (cands'.map
          (fun pid => (runVerifyAttempt env maddrsOf (forwardBody inbound) inbound pid).1)))
        = isValidOf ((gatewayVerifyRoute true reg now ttl (clampQuorum (some q))
            maddrsOf inbound env).1) := by
  have hclamp : clampQuorum (some q) = q := Nat.max_eq_right hq
  have hroute := gatewayVerifyRoute_fst reg now ttl (clampQuorum (some q))
    maddrsOf inbound env hne
  constructor
  · rw [hroute, hclamp, verifyReduce_eq_true_iff, List.countP_map]
    exact Iff.rfl
  · rw [hroute]
    exact isValidOf_verifyReduce_perm (clampQuorum (some q))
      (hperm.map (fun pid => (runVerifyAttempt env maddrsOf (forwardBody inbound)
        inbound pid).1)) |>.symm

/-- C3 witness: quorum 1 over two active static peers (the capability filter
falls back to the full set since seeded peers advertise no kinds), peerA
verifying true and peerB false, with the reversed candidate order as the
permutation. -/
theorem verify_quorum_iff_order_insensitive_witness :
    (1 ≤ 1) ∧
    (getActivePeers (seedStatic ["peerA", "peerB"]) 0 120000 ≠ []) ∧
    ((candidatePeers (seedStatic ["peerA", "peerB"])
        (getActivePeers (seedStatic ["peerA", "peerB"]) 0 120000)
        (requestedNetworkOf demoBody)).Perm ["peerB", "peerA"]) ∧
    (((gatewayVerifyRoute true (seedStatic ["peerA", "peerB"]) 0 120000
          (clampQuorum (some 1)) (fun _ => []) demoBody envSplitVerify).1
        = { status := 200, body := OutBody.verifyResult true none }
      ↔ 1 ≤ (candidatePeers (seedStatic ["peerA", "peerB"])
              (getActivePeers (seedStatic ["peerA", "peerB"]) 0 120000)
              (requestedNetworkOf demoBody)).countP
              (fun pid => ((runVerifyAttempt envSplitVerify (fun _ => [])
                (forwardBody demoBody) demoBody pid).1).isTrueA))
    ∧ isValidOf (verifyReduce (clampQuorum (some 1)) ((["peerB", "peerA"] : List String).map
          (fun pid => (runVerifyAttempt envSplitVerify (fun _ => [])
            (forwardBody demoBody) demoBody pid).1)))
        = isValidOf ((gatewayVerifyRoute true (seedStatic ["peerA", "peerB"]) 0 120000
            (clampQuorum (some 1)) (fun _ => []) demoBody envSplitVerify).1)) :=
  ⟨by decide, by decide, by decide,
   verify_quorum_iff_order_insensitive (seedStatic ["peerA", "peerB"]) 0 120000 1
     (fun _ => []) demoBody envSplitVerify ["peerB", "peerA"]
     (by decide) (by decide) (by decide)⟩

end X402

namespace X402

/-- C4 counterexample: a single candidate whose only outcome is the
application error with status 418 and message teapot; the reduction answers
with the error's message as invalidReason but with the fixed status 400, not
the encountered status 418, so the encountered status is replaced rather than
forwarded. -/
theorem verify_error_status_not_forwarded_cex :
    verifyReduce 1 [Attempt.vError 418 (RespBody.objVal (some "teapot") none)]
      = { status := 400, body := OutBody.verifyResult false (some "teapot") } ∧
    (418 : Nat) ≠ 400 := by
  refine ⟨by decide, by decide⟩

/-- C4 amended: when no attempt is vTrue or vFalse and the first error in
candidate iteration order is vError s b, the libp2p reduction answers
valid=false carrying b's string error field (or the fixed fallback message) as
invalidReason with fixed HTTP status 400 regardless of s, and the HTTP gateway
fan-out reduction likewise answers status 400 forwarding b verbatim. -/
theorem verify_all_error_responds_400_first_message
    (q s : Nat) (b : RespBody) (l : List Attempt)
    (hq : 1 ≤ q)
    (hT : ∀ a ∈ l, a ≠ Attempt.vTrue)
    (hF : ∀ a ∈ l, a ≠ Attempt.vFalse)
    (hE : l.find? Attempt.isErrorA = some (Attempt.vError s b)) :
    verifyReduce q l
      = { status := 400,
          body := OutBody.verifyResult false (some (b.errStr.getD "Verification error")) }
    ∧ httpVerifyReduce q l = { status := 400, body := OutBody.forwardedBody b } := by
  have hcount : l.countP Attempt.isTrueA = 0 := by
    rw [List.countP_eq_zero]
    intro a ha hpa
    cases a with
    | vTrue => exact hT _ ha rfl
    | vFalse => simp [Attempt.isTrueA] at hpa
    | vError s2 b2 => simp [Attempt.isTrueA] at hpa
    | vFail => simp [Attempt.isTrueA] at hpa
  have hany : l.any Attempt.isFalseA = false := by
    rw [List.any_eq_false]
    intro a ha hpa
    cases a with
    | vFalse => exact hF _ ha rfl
    | vTrue => simp [Attempt.isFalseA] at hpa
    | vError s2 b2 => simp [Attempt.isFalseA] at hpa
    | vFail => simp [Attempt.isFalseA] at hpa
  have hql : ¬ q ≤ l.countP Attempt.isTrueA := by
    rw [hcount]
    omega
  constructor
  · simp only [verifyReduce, hql, if_false, hany, Bool.false_eq_true, hE]
  · simp only [httpVerifyReduce, hql, if_false, hany, Bool.false_eq_true, hE]

/-- C4 witness: the amended theorem at quorum 1 and a single error outcome
with status 500 and no string error field, so the fallback message is used. -/
theorem verify_all_error_responds_400_first_message_witness :
    (1 ≤ 1) ∧
    (∀ a ∈ [Attempt.vError 500 (RespBody.otherVal "oops")], a ≠ Attempt.vTrue) ∧
    (∀ a ∈ [Attempt.vError 500 (RespBody.otherVal "oops")], a ≠ Attempt.vFalse) ∧
    ([Attempt.vError 500 (RespBody.otherVal "oops")].find? Attempt.isErrorA
      = some (Attempt.vError 500 (RespBody.otherVal "oops"))) ∧
    (verifyReduce 1 [Attempt.vError 500 (RespBody.otherVal "oops")]
      = { status := 400,
          body := OutBody.verifyResult false
            (some ((RespBody.otherVal "oops").errStr.getD "Verification error")) }
    ∧ httpVerifyReduce 1 [Attempt.vError 500 (RespBody.otherVal "oops")]
      = { status := 400, body := OutBody.forwardedBody (RespBody.otherVal "oops") }) :=
  ⟨by decide, by decide, by decide, by decide,
   verify_all_error_responds_400_first_message 1 500 (RespBody.otherVal "oops")
     [Attempt.vError 500 (RespBody.otherVal "oops")]
     (by decide) (by decide) (by decide) (by decide)⟩

/-- C5: for a non-empty active peer list, the candidate set used by verify
dispatch is never empty, and when the network filter would eliminate every
peer the filter is discarded and the full unfiltered list is used. -/
theorem candidate_set_never_emptied
    (reg : Registry) (peers : List String) (requested : Option String)
    (hne : peers ≠ []) :
    candidatePeers reg peers requested ≠ []
    ∧ ∀ net, requested = some net → filterByNetwork reg peers net = []
        → candidatePeers reg peers requested = peers := by
  cases requested with
  | none =>
    exact ⟨hne, by intro net h; cases h⟩
  | some net =>
    constructor
    · by_cases hf : (filterByNetwork reg peers net).isEmpty = true
      · simp only [candidatePeers, hf, if_true]
        exact hne
      · simp only [candidatePeers, hf, Bool.false_eq_true, if_false]
        simp only [Bool.not_eq_true] at hf
        exact List.isEmpty_eq_false.mp hf
    · intro net2 hr hfil
      injection hr with hr2
      subst hr2
      simp [candidatePeers, hfil]

/-- C5 witness: one active statically seeded peer and a requested network it
does not advertise; the filter empties and is discarded. -/
theorem candidate_set_never_emptied_witness :
    ((["peerA"] : List String) ≠ []) ∧
    (candidatePeers regMixed ["peerA"] (some "base-sepolia") ≠ []
    ∧ ∀ net, (some "base-sepolia" : Option String) = some net
        → filterByNetwork regMixed ["peerA"] net = []
        → candidatePeers regMixed ["peerA"] (some "base-sepolia") = ["peerA"]) :=
  ⟨by decide,
   candidate_set_never_emptied regMixed ["peerA"] (some "base-sepolia") (by decide)⟩

/-- C6 (code behavior at the failing input): peerA is statically seeded with
empty kinds (capability unknown) and peerB has announced an exact
base-sepolia kind; filtering the active list for base-sepolia drops peerA
because the any-test over its empty kinds array is false, so the candidate set
is just peerB and the kind-less peer is excluded, contradicting the claim that
absence of capability information keeps a peer in the candidate set. -/
theorem static_peer_excluded_by_filter :
    getActivePeers regMixed 0 120000 = ["peerA", "peerB"] ∧
    peerMatchesNetwork regMixed "base-sepolia" "peerA" = false ∧
    filterByNetwork regMixed ["peerA", "peerB"] "base-sepolia" = ["peerB"] ∧
    candidatePeers regMixed ["peerA", "peerB"] (some "base-sepolia") = ["peerB"] ∧
    "peerA" ∉ candidatePeers regMixed ["peerA", "peerB"] (some "base-sepolia") := by
  refine ⟨by decide, by decide, by decide, by decide, by decide⟩

/-- C7: when the active peer list is empty, all four routes answer their
503 unavailable response with an empty dispatch trace, so no transport call is
attempted; the libp2p routes under any hasP2p flag, the HTTP routes with an
empty configured peer list. -/
theorem no_active_peers_no_dispatch
    (hasP2p : Bool) (reg : Registry) (now ttl q n d : Nat)
    (maddrsOf : String → List String) (inbound : BodyShape) (env : TransportEnv)
    (shuffled : List String) (outcome : String → CallResult)
    (hempty : getActivePeers reg now ttl = []) :
    gatewayVerifyRoute hasP2p reg now ttl q maddrsOf inbound env
      = ({ status := 503, body := OutBody.errorMsg "No peers available" }, [])
    ∧ gatewaySettleRoute hasP2p reg now ttl maddrsOf inbound n d env
      = some ({ status := 503, body := OutBody.errorMsg "No peers available" }, [])
    ∧ httpVerifyRoute q [] inbound outcome
      = ({ status := 503, body := OutBody.errorMsg "No peers configured" }, [])
    ∧ httpSettleRoute [] shuffled inbound outcome
      = ({ status := 503,
           body := OutBody.settleResult false (some "No peers configured") none none }, []) := by
  have hE : (getActivePeers reg now ttl).isEmpty = true := by
    rw [hempty]
    rfl
  refine ⟨?_, ?_,rfl, rfl⟩
  · simp [gatewayVerifyRoute, hE]
  · simp [gatewaySettleRoute, hE]

/-- C7 witness: a registry holding one stale announced peer (lastSeenMs 5)
read at now 999999 with ttl 100, so the active list is empty, at hasP2p
true. -/
theorem no_active_peers_no_dispatch_witness :
    (getActivePeers [{ peerId := "stale", kinds := [], lastSeenMs := 5 }] 999999 100 = []) ∧
    (gatewayVerifyRoute true [{ peerId := "stale", kinds := [], lastSeenMs := 5 }] 999999 100 1
        (fun _ => []) demoBody envAllThrown
      = ({ status := 503, body := OutBody.errorMsg "No peers available" }, [])
    ∧ gatewaySettleRoute true [{ peerId := "stale", kinds := [], lastSeenMs := 5 }] 999999 100
        (fun _ => []) demoBody 0 2 envAllThrown
      = some ({ status := 503, body := OutBody.errorMsg "No peers available" }, [])
    ∧ httpVerifyRoute 1 [] demoBody (fun _ => CallResult.thrown)
      = ({ status := 503, body := OutBody.errorMsg "No peers configured" }, [])
    ∧ httpSettleRoute [] ["u1"] demoBody (fun _ => CallResult.thrown)
      = ({ status := 503,
           body := OutBody.settleResult false (some "No peers configured") none none }, [])) :=
  ⟨by decide,
   no_active_peers_no_dispatch true [{ peerId := "stale", kinds := [], lastSeenMs := 5 }]
     999999 100 1 0 2 (fun _ => []) demoBody envAllThrown ["u1"]
     (fun _ => CallResult.thrown) (by decide)⟩

/-- C8 (code behavior at the failing input): in the explicit-delay time model,
a responder needing 60000 ms against a 10000 ms timeout makes the HTTP
binding's postJson abort (thrown) after blocking only 10000 ms, while the
libp2p binding's request helpers, whose sendRequest carries no timer and never
reads the timeoutMs parameter, block the full 60000 ms and still resolve. -/
theorem p2p_transport_ignores_timeout :
    p2pRequestBlockedMs 60000 10000 = 60000 ∧ 10000 < 60000 ∧
    p2pRequestResult 60000 10000 (CallResult.okResp 200 (RespBody.boolVal true))
      = CallResult.okResp 200 (RespBody.boolVal true) ∧
    postJsonBlockedMs 60000 10000 = 10000 ∧
    postJsonResult 60000 10000 (CallResult.okResp 200 (RespBody.boolVal true))
      = CallResult.thrown := by
  refine ⟨by decide, by decide, by decide, by decide, by decide⟩

/-- C9 (code behavior at the failing input): a legacy-shaped body (raw
paymentHeader, no paymentPayload) is normalized for the direct dispatch, but
when direct delivery throws, the multiaddr fallback dial forwards the raw
legacy body unchanged: the trace records the normalized body on the peer call
and the un-normalized legacy body on the multiaddr call. -/
theorem verify_maddr_fallback_sends_raw_body :
    forwardBody legacyBody ≠ legacyBody ∧
    (forwardBody legacyBody).paymentPayload = some (PayloadVal.headerWrap "hdr") ∧
    (gatewayVerifyRoute true (seedStatic ["peerA"]) 0 120000 1 (fun _ => ["maddr1"])
        legacyBody envMaddrOnly).2
      = [TraceCall.verifyPeer "peerA" (forwardBody legacyBody),
         TraceCall.verifyMaddr "maddr1" legacyBody] ∧
    legacyBody.paymentPayload = none := by
  refine ⟨by decide, by decide, by decide, by decide⟩

/-- C10: whenever the settle route reaches its random selection (non-empty
active list, random draw n/d inside the unit interval), pickRandom returns a
defined peer that is a member of the active list, and the route's first
transport dispatch is addressed to exactly that peer. -/
theorem settle_pick_defined_and_dispatched
    (reg : Registry) (now ttl : Nat) (maddrsOf : String → List String)
    (inbound : BodyShape) (n d : Nat) (env : TransportEnv)
    (hne : getActivePeers reg now ttl ≠ []) (hnd : n < d) :
    ∃ pid, pickRandom (getActivePeers reg now ttl) n d = some pid
      ∧ pid ∈ getActivePeers reg now ttl
      ∧ ∃ r t, gatewaySettleRoute true reg now ttl maddrsOf inbound n d env
          = some (r, TraceCall.settlePeer pid (forwardBody inbound) :: t) := by
  obtain ⟨pid, hpick, hmem⟩ := pickRandom_mem hne hnd
  exact ⟨pid, hpick, hmem,
    gatewaySettleRoute_head reg now ttl maddrsOf inbound n d env pid hne hpick⟩

/-- C10 witness: two active static peers and the draw 1/2 with every transport
call throwing. -/
theorem settle_pick_defined_and_dispatched_witness :
    (getActivePeers (seedStatic ["peerA", "peerB"]) 0 120000 ≠ []) ∧ 1 < 2 ∧
    ∃ pid, pickRandom (getActivePeers (seedStatic ["peerA", "peerB"]) 0 120000) 1 2 = some pid
      ∧ pid ∈ getActivePeers (seedStatic ["peerA", "peerB"]) 0 120000
      ∧ ∃ r t, gatewaySettleRoute true (seedStatic ["peerA", "peerB"]) 0 120000 (fun _ => [])
          demoBody 1 2 envAllThrown
          = some (r, TraceCall.settlePeer pid (forwardBody demoBody) :: t) :=
  ⟨by decide, by decide,
   settle_pick_defined_and_dispatched (seedStatic ["peerA", "peerB"]) 0 120000 (fun _ => [])
     demoBody 1 2 envAllThrown (by decide) (by decide)⟩

end X402
